import Mathlib

/-!
# Verification of the linty indentation-check engine

A shallow embedding, in Lean 4, of `linty/indent.py`: the column resolver
(`lengthExpandedTabs`), the `IndentLevel` value type, the curly-brace block
checks, the per-kind handler dispatch (`getHandler`), and the traversal that
drives `checkIndentation` over a syntax tree.  Python integers are modelled by
`Int` (or `Nat` where the source values are manifestly non-negative), Python
sets by `Finset`, and Python exceptions (assertion failures, `NameError` from
`eval`, attribute access on `None`) by `Except String`.
-/

deriving instance DecidableEq for Except

namespace Linty

/-- Embedding of `lengthExpandedTabs(s, to_idx, tab_width)` from
`linty/indent.py`.  The Python loop runs `i` over `range(0, to_idx)` and for a
tab character executes `l += (l / tab_width + 1) * tab_width` (note `+=`, and
Python-2 integer division `/` is floor division, here `Nat` division); any
other character executes `l += 1`.  The loop over the first `to_idx`
characters is a fold over `s.take to_idx` (the source indexes `s[i]`, which
requires `to_idx ≤ s.length`; all uses below satisfy this). -/
def lengthExpandedTabs (s : List Char) (to_idx : Nat) (tab_width : Nat) : Nat :=
  List.foldl
    (fun l c => if c = '\t' then l + (l / tab_width + 1) * tab_width else l + 1)
    0 (s.take to_idx)

/-- Second definition for comparison, following the specification text
word for word: "for a tab character, advance `l` to the next multiple of `w`
strictly greater than the current `l` (i.e., `l ← ((l / w) + 1) * w` using
integer division); for any other character, advance `l` by 1."  It differs
from the source only in assigning `(l / w + 1) * w` instead of adding it. -/
def lengthExpandedTabsSpec (s : List Char) (to_idx : Nat) (tab_width : Nat) : Nat :=
  List.foldl
    (fun l c => if c = '\t' then (l / tab_width + 1) * tab_width else l + 1)
    0 (s.take to_idx)

/-- Embedding of class `IndentLevel`: "Encapsulates a set of acceptable
indentation levels."  The Python attribute `self.levels` is a `set` of
integers, modelled as a `Finset ℤ`. -/
structure IndentLevel where
  levels : Finset ℤ
deriving DecidableEq

/-- `IndentLevel.__init__` called as `IndentLevel(indent=c)`: the branch
`if indent is not None: self.levels.add(indent)` starting from the empty set,
i.e. the singleton set. -/
def IndentLevel.ofIndent (indent : ℤ) : IndentLevel :=
  ⟨{indent}⟩

/-- `IndentLevel.__init__` called as `IndentLevel(base=b, offset=o)`: the
branch `for l in base.levels: self.levels.add(l + offset)`, i.e. the image of
the base set under addition of the offset. -/
def IndentLevel.ofBaseOffset (base : IndentLevel) (offset : ℤ) : IndentLevel :=
  ⟨base.levels.image (fun l => l + offset)⟩

/-- `IndentLevel.isMultilevel`: `len(self.levels) > 1`. -/
def IndentLevel.isMultilevel (L : IndentLevel) : Bool :=
  decide (1 < L.levels.card)

/-- `IndentLevel.accept(indent)`: `indent in self.levels`. -/
def IndentLevel.accept (L : IndentLevel) (indent : ℤ) : Bool :=
  decide (indent ∈ L.levels)

/-- `IndentLevel.addAcceptedIndent(level)`: if the argument is an
`IndentLevel`, add every member of its `levels`; otherwise add the integer
argument itself. -/
def IndentLevel.addAcceptedIndent (L : IndentLevel) (level : ℤ ⊕ IndentLevel) :
    IndentLevel :=
  match level with
  | Sum.inr lv => ⟨L.levels ∪ lv.levels⟩
  | Sum.inl i => ⟨insert i L.levels⟩

/-- The indent levels reachable through the public operations of
`IndentLevel`: construction as a singleton, derivation from a reachable level
with a constant offset, and widening via `addAcceptedIndent` with either an
integer or another reachable level. -/
inductive ReachableLevel : IndentLevel → Prop where
  | singleton (c : ℤ) : ReachableLevel (IndentLevel.ofIndent c)
  | derive {L : IndentLevel} (offset : ℤ) :
      ReachableLevel L → ReachableLevel (IndentLevel.ofBaseOffset L offset)
  | addInt {L : IndentLevel} (i : ℤ) :
      ReachableLevel L → ReachableLevel (L.addAcceptedIndent (Sum.inl i))
  | addLevel {L M : IndentLevel} :
      ReachableLevel L → ReachableLevel M →
      ReachableLevel (L.addAcceptedIndent (Sum.inr M))

/-- A source location as supplied by the external parser: file name and
1-based line and column (`node.extent.start.file.name`, `.line`,
`.column`). -/
structure SourceLocation where
  file : String
  line : Nat
  column : Nat
deriving DecidableEq

/-- A source extent with start and end locations (`end` is a Lean keyword, so
the end location is called `stop`). -/
structure SourceExtent where
  start : SourceLocation
  stop : SourceLocation
deriving DecidableEq

/-- The token kinds of the external tokenizer (`clang.cindex.TokenKind`); the
code only ever distinguishes `PUNCTUATION` from the rest. -/
inductive TokenKind where
  | PUNCTUATION
  | KEYWORD
  | IDENTIFIER
  | LITERAL
  | COMMENT
deriving DecidableEq

/-- A token as supplied by the external tokenizer: kind, spelling, extent. -/
structure Token where
  kind : TokenKind
  spelling : String
  extent : SourceExtent
deriving DecidableEq

/-- Embedding of `violations.RuleViolation` as constructed by
`logViolation(rule_type, node, text)`: the rule type together with the
node's start file, line, column and the message text. -/
structure RuleViolation where
  rule_type : String
  file : String
  line : Nat
  column : Nat
  text : String
deriving DecidableEq

/-- `logViolation(rule_type, node, text)` applied to a token: builds the
violation from the token's `extent.start`. -/
def mkViolation (rule_type : String) (tok : Token) (text : String) :
    RuleViolation :=
  ⟨rule_type, tok.extent.start.file, tok.extent.start.line,
   tok.extent.start.column, text⟩

/-- The test `t.kind == tk.PUNCTUATION and t.spelling == '{'` used by the
brace scans. -/
def isLCurly (t : Token) : Bool :=
  t.kind == TokenKind.PUNCTUATION && t.spelling == "\x7b"

/-- The test `t.kind == tk.PUNCTUATION and t.spelling == '}'`. -/
def isRCurly (t : Token) : Bool :=
  t.kind == TokenKind.PUNCTUATION && t.spelling == "\x7d"

/-- `CurlyBraceBlockHandler.getLCurlyBrace`: scan the token window for the
first opening curly brace, `None` if there is none. -/
def getLCurlyBrace : List Token → Option Token
  | [] => none
  | t :: rest => if isLCurly t then some t else getLCurlyBrace rest

/-- The loop of `CurlyBraceBlockHandler.getRCurlyBrace` over
`reversed(token_set)`. -/
def findFirstRCurly : List Token → Option Token
  | [] => none
  | t :: rest => if isRCurly t then some t else findFirstRCurly rest

/-- `CurlyBraceBlockHandler.getRCurlyBrace`: the last closing curly brace of
the token window, found by scanning the reversed window. -/
def getRCurlyBrace (ts : List Token) : Option Token :=
  findFirstRCurly ts.reverse

/-- The loop of `getTokenLeftOfLeftLCurlyBrace`: `res` starts as `None` and
holds the previously seen token; on the first opening brace the previous
token is returned, and `None` is returned when no opening brace occurs. -/
def tokenLeftOfLCurly : Option Token → List Token → Option Token
  | _, [] => none
  | res, t :: rest => if isLCurly t then res else tokenLeftOfLCurly (some t) rest

/-- `CurlyBraceBlockHandler.getTokenLeftOfLeftLCurlyBrace`. -/
def getTokenLeftOfLeftLCurlyBrace (ts : List Token) : Option Token :=
  tokenLeftOfLCurly none ts

/-- `areOnSameLine(node1, node2)`: `node1 and node2 and node1.extent.start.line
== node2.extent.start.line`; a `None` argument makes the conjunction falsy. -/
def areOnSameLine : Option Token → Option Token → Bool
  | some a, some b => a.extent.start.line == b.extent.start.line
  | _, _ => false

/-- `areOnSameColumn(node1, node2)`: as `areOnSameLine` but comparing the raw
start columns. -/
def areOnSameColumn : Option Token → Option Token → Bool
  | some a, some b => a.extent.start.column == b.extent.start.column
  | _, _ => false

/-- `expandedTabsColumnNo(node)`: read the line of the node's start location
from the file (the line cache is modelled by the list of the file's lines,
0-indexed by `line - 1`) and resolve the 0-based character offset
`column - 1` through `lengthExpandedTabs` with the configured tab size. -/
def expandedTabsColumnNo (lines : List String) (tab_size : Nat)
    (loc : SourceLocation) : Nat :=
  lengthExpandedTabs (lines.getD (loc.line - 1) "").data (loc.column - 1) tab_size

/-- The fields of `IndentationConfig` read by the embedded code, with the
default values set in `IndentationConfig.__init__`. -/
structure IndentationConfig where
  tab_policy : String := "spaces-only"
  indentation_size : ℤ := 4
  tab_size : Nat := 4
  indent_inside_class_struct_body : Bool := true
  indent_declarations_within_namespace_definition : Bool := false
  brace_positions_class_struct_declaration : String := "same-line"
  brace_positions_namespace_declaration : String := "same-line"
deriving DecidableEq

/-- The default configuration (all defaults). -/
def defaultIndentationConfig : IndentationConfig := {}

def msgOpenSameLine : String :=
  "Opening brace should be on the same line as the token left of it."

def msgCloseSameColumn : String :=
  "Closing brace should be on the same column as block start."

def msgOpenSameColumn : String :=
  "Opening brace should be on the same column as block start."

def msgOpenNextLine : String :=
  "Opening brace should be on the line directly after block start."

def msgOpenIndented : String :=
  "Opening brace should be indented one level further than block start."

def msgCloseIndented : String :=
  "Closing brace should be indented one level further than block start."

/-- Embedding of `CurlyBraceBlockHandler.checkCurlyBraces(indent_type)`.
The handler state it reads — configuration, the file lines, its indent
level and its token window — are passed explicitly.  Python exceptions are
modelled by `Except.error`: the two `assert` statements, and every attribute
access on a possibly-`None` token (`t.extent` in the `next-line` branches,
`rbrace` dereferences in `logViolation` and in the debug `print` of the
`next-line-indent` branch).  Violations are returned in the order
`logViolation` appends them. -/
def checkCurlyBraces (config : IndentationConfig) (lines : List String)
    (level : IndentLevel) (ts : List Token) (indent_type : String) :
    Except String (List RuleViolation) :=
  match getLCurlyBrace ts with
  | none =>
      if (getRCurlyBrace ts).isNone && (getTokenLeftOfLeftLCurlyBrace ts).isNone
      then Except.ok []
      else Except.error "AssertionError"
  | some lb =>
      let rbrace := getRCurlyBrace ts
      let t := getTokenLeftOfLeftLCurlyBrace ts
      if indent_type = "same-line" then
        let v1 := if areOnSameLine t (some lb) then ([] : List RuleViolation)
                  else [mkViolation "indent.brace" lb msgOpenSameLine]
        if areOnSameColumn ts.head? rbrace then Except.ok v1
        else
          match rbrace with
          | none => Except.error "AttributeError"
          | some rb =>
              Except.ok (v1 ++ [mkViolation "indent.brace" rb msgCloseSameColumn])
      else if indent_type = "next-line" then
        let v1 := if areOnSameColumn ts.head? (some lb) then ([] : List RuleViolation)
                  else [mkViolation "indent.brace" lb msgOpenSameColumn]
        match t with
        | none => Except.error "AttributeError"
        | some tt =>
            let v2 := if tt.extent.start.line = lb.extent.start.line + 1
                      then [mkViolation "indent.brace" lb msgOpenNextLine]
                      else []
            if areOnSameColumn ts.head? rbrace then Except.ok (v1 ++ v2)
            else
              match rbrace with
              | none => Except.error "AttributeError"
              | some rb =>
                  Except.ok
                    (v1 ++ v2 ++ [mkViolation "indent.brace" rb msgCloseSameColumn])
      else if indent_type = "next-line-indent" then
        match t with
        | none => Except.error "AttributeError"
        | some tt =>
            let v1 := if tt.extent.start.line = lb.extent.start.line + 1
                      then [mkViolation "indent.brace" lb msgOpenNextLine]
                      else []
            match rbrace with
            | none => Except.error "AttributeError"
            | some rb =>
                let next_level :=
                  IndentLevel.ofBaseOffset level config.indentation_size
                let v2 := if next_level.accept
                              (expandedTabsColumnNo lines config.tab_size
                                lb.extent.start : ℤ)
                          then ([] : List RuleViolation)
                          else [mkViolation "indent.brace" lb msgOpenIndented]
                let v3 := if next_level.accept
                              (expandedTabsColumnNo lines config.tab_size
                                rb.extent.start : ℤ)
                          then ([] : List RuleViolation)
                          else [mkViolation "indent.brace" rb msgCloseIndented]
                Except.ok (v1 ++ v2 ++ v3)
      else Except.error "AssertionError"

/-- Helper for concrete examples: a token in file `t.cpp`. -/
def mkToken (kind : TokenKind) (spelling : String) (line col endLine endCol : Nat) :
    Token :=
  ⟨kind, spelling, ⟨⟨"t.cpp", line, col⟩, ⟨"t.cpp", endLine, endCol⟩⟩⟩

/-- C6: under brace style `same-line`, when the token window has an owner
token, a left brace and a right brace, and the right brace starts on the same
column as the window's first token, then: if owner and left brace share a
line the check appends zero violations, and if they do not it appends exactly
one violation, whose kind is `indent.brace`. -/
theorem checkCurlyBraces_sameLine (config : IndentationConfig)
    (lines : List String) (level : IndentLevel) (ts : List Token)
    (lb tt rb ft : Token)
    (hl : getLCurlyBrace ts = some lb)
    (ht : getTokenLeftOfLeftLCurlyBrace ts = some tt)
    (hr : getRCurlyBrace ts = some rb)
    (hf : ts.head? = some ft)
    (hcol : rb.extent.start.column = ft.extent.start.column) :
    (tt.extent.start.line = lb.extent.start.line →
      checkCurlyBraces config lines level ts "same-line" = Except.ok []) ∧
    (tt.extent.start.line ≠ lb.extent.start.line →
      checkCurlyBraces config lines level ts "same-line" =
        Except.ok [mkViolation "indent.brace" lb msgOpenSameLine] ∧
      (mkViolation "indent.brace" lb msgOpenSameLine).rule_type = "indent.brace") := by
  have hcc : areOnSameColumn ts.head? (getRCurlyBrace ts) = true := by
    rw [hf, hr]
    simp [areOnSameColumn, hcol]
  constructor
  · intro h
    simp only [checkCurlyBraces, hl, ht, hr, hf] at hcc ⊢
    simp [areOnSameLine, areOnSameColumn, h, hcol]
  · intro h
    refine ⟨?_, rfl⟩
    simp only [checkCurlyBraces, hl, ht, hr, hf] at hcc ⊢
    simp [areOnSameLine, areOnSameColumn, h, hcol]

def c6Owner : Token := mkToken TokenKind.IDENTIFIER "A" 1 1 1 2

def c6LBSame : Token := mkToken TokenKind.PUNCTUATION "\x7b" 1 3 1 4

def c6LBNext : Token := mkToken TokenKind.PUNCTUATION "\x7b" 2 1 2 2

def c6RB : Token := mkToken TokenKind.PUNCTUATION "\x7d" 3 1 3 2

def c6TsSame : List Token := [c6Owner, c6LBSame, c6RB]

def c6TsNext : List Token := [c6Owner, c6LBNext, c6RB]

/-- Witness for C6: a window with owner and brace on line 1 and the right
brace aligned to column 1 gets zero violations; moving the left brace to
line 2 gets exactly the one `indent.brace` violation. -/
theorem checkCurlyBraces_sameLine_witness :
    checkCurlyBraces defaultIndentationConfig [] (IndentLevel.ofIndent 0)
      c6TsSame "same-line" = Except.ok [] ∧
    checkCurlyBraces defaultIndentationConfig [] (IndentLevel.ofIndent 0)
      c6TsNext "same-line" =
      Except.ok [mkViolation "indent.brace" c6LBNext msgOpenSameLine] :=
  ⟨(checkCurlyBraces_sameLine defaultIndentationConfig [] (IndentLevel.ofIndent 0)
      c6TsSame c6LBSame c6Owner c6RB c6Owner (by decide) (by decide)
      (by decide) (by decide) (by decide)).1 (by decide),
   ((checkCurlyBraces_sameLine defaultIndentationConfig [] (IndentLevel.ofIndent 0)
      c6TsNext c6LBNext c6Owner c6RB c6Owner (by decide) (by decide)
      (by decide) (by decide) (by decide)).2 (by decide)).1⟩

def c2Owner : Token := mkToken TokenKind.IDENTIFIER "A" 1 1 1 2

def c2LB : Token := mkToken TokenKind.PUNCTUATION "\x7b" 2 1 2 2

def c2RB : Token := mkToken TokenKind.PUNCTUATION "\x7d" 3 1 3 2

def c2Ts : List Token := [c2Owner, c2LB, c2RB]

/-- Counterexample to C2 as stated: in this window the left brace's start
line (2) equals the owner token's start line (1) plus one, so the claim
predicts that the violation "Opening brace should be on the line directly
after block start." is recorded; the code records no violation at all,
because its condition is the reversed comparison
`t.extent.start.line == lbrace.extent.start.line + 1`. -/
theorem nextLine_adjacency_counterexample :
    getLCurlyBrace c2Ts = some c2LB ∧
    getTokenLeftOfLeftLCurlyBrace c2Ts = some c2Owner ∧
    c2LB.extent.start.line = c2Owner.extent.start.line + 1 ∧
    checkCurlyBraces defaultIndentationConfig [] (IndentLevel.ofIndent 0) c2Ts
      "next-line" = Except.ok [] := by
  decide

/-- C2 (amended): under brace styles `next-line` and `next-line-indent`, for
a window containing a left brace, an owner token before it and a right brace,
the violation "Opening brace should be on the line directly after block
start." is recorded exactly when the OWNER token's start line equals the left
brace's start line plus one (the source compares
`t.extent.start.line == lbrace.extent.start.line + 1`, the reverse of the
claimed direction). -/
theorem checkCurlyBraces_adjacency_violation (config : IndentationConfig)
    (lines : List String) (level : IndentLevel) (ts : List Token)
    (lb tt rb : Token) (style : String)
    (hl : getLCurlyBrace ts = some lb)
    (ht : getTokenLeftOfLeftLCurlyBrace ts = some tt)
    (hr : getRCurlyBrace ts = some rb)
    (hs : style = "next-line" ∨ style = "next-line-indent") :
    ∃ vs, checkCurlyBraces config lines level ts style = Except.ok vs ∧
      vs.countP (fun v => v.text == msgOpenNextLine) =
        (if tt.extent.start.line = lb.extent.start.line + 1 then 1 else 0) := by
  rcases hs with rfl | rfl
  · by_cases hadj : tt.extent.start.line = lb.extent.start.line + 1 <;>
    by_cases hc1 : areOnSameColumn ts.head? (some lb) = true <;>
    by_cases hc2 : areOnSameColumn ts.head? (some rb) = true <;>
      simp [checkCurlyBraces, hl, ht, hr, hadj, hc1, hc2, mkViolation,
        List.countP_append, List.countP_cons] <;> decide
  · by_cases hadj : tt.extent.start.line = lb.extent.start.line + 1 <;>
    by_cases hc1 : (IndentLevel.ofBaseOffset level config.indentation_size).accept
        (expandedTabsColumnNo lines config.tab_size lb.extent.start : ℤ) = true <;>
    by_cases hc2 : (IndentLevel.ofBaseOffset level config.indentation_size).accept
        (expandedTabsColumnNo lines config.tab_size rb.extent.start : ℤ) = true <;>
      simp [checkCurlyBraces, hl, ht, hr, hadj, hc1, hc2, mkViolation,
        List.countP_append, List.countP_cons] <;> decide

def c2wOwner : Token := mkToken TokenKind.IDENTIFIER "B" 3 1 3 2

def c2wLB : Token := mkToken TokenKind.PUNCTUATION "\x7b" 2 1 2 2

def c2wRB : Token := mkToken TokenKind.PUNCTUATION "\x7d" 4 1 4 2

def c2wTs : List Token := [c2wOwner, c2wLB, c2wRB]

/-- Witness for the amended C2: a window with owner token on line 3 and left
brace on line 2, so that the source's condition holds and the adjacency
violation is recorded once. -/
theorem checkCurlyBraces_adjacency_violation_witness :
    ∃ vs, checkCurlyBraces defaultIndentationConfig [] (IndentLevel.ofIndent 0)
        c2wTs "next-line" = Except.ok vs ∧
      vs.countP (fun v => v.text == msgOpenNextLine) =
        (if c2wOwner.extent.start.line = c2wLB.extent.start.line + 1
         then 1 else 0) :=
  checkCurlyBraces_adjacency_violation defaultIndentationConfig []
    (IndentLevel.ofIndent 0) c2wTs c2wLB c2wOwner c2wRB "next-line"
    (by decide) (by decide) (by decide) (Or.inl rfl)

def c5First : Token := mkToken TokenKind.IDENTIFIER "X" 1 1 1 2

def c5LB4 : Token := mkToken TokenKind.PUNCTUATION "\x7b" 3 5 3 6

def c5LB0 : Token := mkToken TokenKind.PUNCTUATION "\x7b" 3 1 3 2

def c5LB2 : Token := mkToken TokenKind.PUNCTUATION "\x7b" 3 3 3 4

def c5RB : Token := mkToken TokenKind.PUNCTUATION "\x7d" 4 5 4 6

def c5Lines4 : List String := ["X", "", "    \x7b", "    \x7d"]

def c5Lines0 : List String := ["X", "", "\x7b", "    \x7d"]

def c5Lines2 : List String := ["X", "", "  \x7b", "    \x7d"]

/-- C5: under brace style `next-line-indent`, each brace's tab-expanded
column must be accepted by the level derived from the block's own level with
offset one indentation unit, else exactly one violation is recorded for that
brace; concretely, with indentation unit 4 and block level `{0}`, an opening
brace at effective column 4 yields no violation at all, while columns 0 and 2
yield exactly one violation each. -/
theorem checkCurlyBraces_nextLineIndent :
    (∀ (config : IndentationConfig) (lines : List String) (level : IndentLevel)
       (ts : List Token) (lb tt rb : Token),
       getLCurlyBrace ts = some lb →
       getTokenLeftOfLeftLCurlyBrace ts = some tt →
       getRCurlyBrace ts = some rb →
       ∃ vs, checkCurlyBraces config lines level ts "next-line-indent" =
           Except.ok vs ∧
         vs.countP (fun v => v.text == msgOpenIndented) =
           (if (IndentLevel.ofBaseOffset level config.indentation_size).accept
                (expandedTabsColumnNo lines config.tab_size lb.extent.start : ℤ)
                = true
            then 0 else 1) ∧
         vs.countP (fun v => v.text == msgCloseIndented) =
           (if (IndentLevel.ofBaseOffset level config.indentation_size).accept
                (expandedTabsColumnNo lines config.tab_size rb.extent.start : ℤ)
                = true
            then 0 else 1)) ∧
    checkCurlyBraces defaultIndentationConfig c5Lines4 (IndentLevel.ofIndent 0)
      [c5First, c5LB4, c5RB] "next-line-indent" = Except.ok [] ∧
    checkCurlyBraces defaultIndentationConfig c5Lines0 (IndentLevel.ofIndent 0)
      [c5First, c5LB0, c5RB] "next-line-indent" =
      Except.ok [mkViolation "indent.brace" c5LB0 msgOpenIndented] ∧
    checkCurlyBraces defaultIndentationConfig c5Lines2 (IndentLevel.ofIndent 0)
      [c5First, c5LB2, c5RB] "next-line-indent" =
      Except.ok [mkViolation "indent.brace" c5LB2 msgOpenIndented] := by
  refine ⟨?_, by decide, by decide, by decide⟩
  intro config lines level ts lb tt rb hl ht hr
  by_cases hadj : tt.extent.start.line = lb.extent.start.line + 1 <;>
  by_cases hc1 : (IndentLevel.ofBaseOffset level config.indentation_size).accept
      (expandedTabsColumnNo lines config.tab_size lb.extent.start : ℤ) = true <;>
  by_cases hc2 : (IndentLevel.ofBaseOffset level config.indentation_size).accept
      (expandedTabsColumnNo lines config.tab_size rb.extent.start : ℤ) = true <;>
    simp [checkCurlyBraces, hl, ht, hr, hadj, hc1, hc2, mkViolation,
      List.countP_append, List.countP_cons] <;> decide

/-- Witness for C5: the scenario with the opening brace at effective column 0
under block level `{0}` and unit 4, instantiating the universal part. -/
theorem checkCurlyBraces_nextLineIndent_witness :
    ∃ vs, checkCurlyBraces defaultIndentationConfig c5Lines0
        (IndentLevel.ofIndent 0) [c5First, c5LB0, c5RB] "next-line-indent" =
        Except.ok vs ∧
      vs.countP (fun v => v.text == msgOpenIndented) =
        (if (IndentLevel.ofBaseOffset (IndentLevel.ofIndent 0)
              defaultIndentationConfig.indentation_size).accept
             (expandedTabsColumnNo c5Lines0 defaultIndentationConfig.tab_size
               c5LB0.extent.start : ℤ) = true
         then 0 else 1) ∧
      vs.countP (fun v => v.text == msgCloseIndented) =
        (if (IndentLevel.ofBaseOffset (IndentLevel.ofIndent 0)
              defaultIndentationConfig.indentation_size).accept
             (expandedTabsColumnNo c5Lines0 defaultIndentationConfig.tab_size
               c5RB.extent.start : ℤ) = true
         then 0 else 1) :=
  checkCurlyBraces_nextLineIndent.1 defaultIndentationConfig c5Lines0
    (IndentLevel.ofIndent 0) [c5First, c5LB0, c5RB] c5LB0 c5First c5RB
    (by decide) (by decide) (by decide)

/-- Embedding of `IndentSyntaxNodeHandler._getTokenSet`, threading the
handler field `self._token_set` (initially `None`) explicitly.  The guard is
the Python truthiness test `if self._token_set:`, falsy both for `None` and
for an empty token sequence; when it is falsy, `ci.tokenize` is invoked and
its result stored.  Returns the token sequence, the new cache field, and the
number of tokenizer invocations made by this call. -/
def getTokenSet (tokenize : List Token) :
    Option (List Token) → List Token × Option (List Token) × Nat
  | some l => if l.isEmpty then (tokenize, some tokenize, 1) else (l, some l, 0)
  | none => (tokenize, some tokenize, 1)

/-- Counterexample to C9 as stated: when the tokenizer returns the empty
token sequence, the cached value `[]` is falsy, so the second call to
`_getTokenSet` invokes the tokenizer again (one invocation in each call, two
in total), contradicting "the tokenizer is invoked at most once per handler
regardless of the window's contents". -/
theorem tokenSet_cache_counterexample :
    (getTokenSet ([] : List Token) none).2.2 = 1 ∧
    (getTokenSet ([] : List Token) none).2.1 = some [] ∧
    (getTokenSet ([] : List Token) (getTokenSet ([] : List Token) none).2.1).2.2
      = 1 := by
  decide

/-- C9 (amended): the token window is memoized on first access provided the
computed token sequence is non-empty: the first call invokes the tokenizer
once and stores the result, and a subsequent call returns the cached
sequence with zero tokenizer invocations.  (When the tokenizer returns an
empty sequence, every call re-invokes it.) -/
theorem tokenSet_cache_memoized (tokenize : List Token) (h : tokenize ≠ []) :
    getTokenSet tokenize none = (tokenize, some tokenize, 1) ∧
    getTokenSet tokenize (some tokenize) = (tokenize, some tokenize, 0) := by
  constructor
  · rfl
  · simp [getTokenSet, h]

/-- Witness for the amended C9: a one-token window is tokenized once and then
served from the cache. -/
theorem tokenSet_cache_memoized_witness :
    getTokenSet [mkToken TokenKind.IDENTIFIER "A" 1 1 1 2] none =
      ([mkToken TokenKind.IDENTIFIER "A" 1 1 1 2],
       some [mkToken TokenKind.IDENTIFIER "A" 1 1 1 2], 1) ∧
    getTokenSet [mkToken TokenKind.IDENTIFIER "A" 1 1 1 2]
      (some [mkToken TokenKind.IDENTIFIER "A" 1 1 1 2]) =
      ([mkToken TokenKind.IDENTIFIER "A" 1 1 1 2],
       some [mkToken TokenKind.IDENTIFIER "A" 1 1 1 2], 0) :=
  tokenSet_cache_memoized [mkToken TokenKind.IDENTIFIER "A" 1 1 1 2] (by decide)

/-- The effect of `kind_name.replace('_', ' ')` followed by `.title()` and
`.replace(' ', '')` in `getHandler`, as a split on underscores (empty chunks
between consecutive underscores included, as Python produces empty words
that title-case to nothing). -/
def splitOnUnderscore : List Char → List (List Char)
  | [] => [[]]
  | c :: cs =>
      let r := splitOnUnderscore cs
      if c = '_' then [] :: r
      else
        match r with
        | [] => [[c]]
        | w :: ws => (c :: w) :: ws

/-- Python `str.title()` on one word of an upper-snake tag: first character
uppercased, the rest lowercased. -/
def titleWord : List Char → List Char
  | [] => []
  | c :: cs => c.toUpper :: cs.map Char.toLower

/-- The class-name computation of `getHandler`: the kind tag (the text after
the final dot of `repr(str(node.kind))` with the quotes removed, e.g.
`CLASS_DECL`) has underscores replaced by spaces, is title-cased, has the
spaces removed, and gets `Handler` appended: `CLASS_DECL` becomes
`ClassDeclHandler`. -/
def handlerClassName (kind_name : String) : String :=
  String.mk (((splitOnUnderscore kind_name.data).map titleWord).flatten) ++ "Handler"

/-- The class names that `eval(class_name)` can resolve in the module scope
of `linty/indent.py`: every class whose name ends in `Handler`, in source
order. -/
def definedHandlerClasses : List String :=
  ["IndentSyntaxNodeHandler", "RootHandler", "CurlyBraceBlockHandler",
   "AddrLabelExprHandler", "ArraySubscriptExprHandler", "AsmStmtHandler",
   "BinaryOperatorHandler", "BlockExprHandler", "BreakStmtHandler",
   "CallExprHandler", "CaseStmtHandler", "CharacterLiteralHandler",
   "ClassDeclHandler", "ClassTemplateHandler",
   "ClassTemplatePartialSpecializationHandler",
   "CompoundAssignmentOperatorHandler", "CompoundLiteralExprHandler",
   "CompoundStmtHandler", "ConditonalOperatorHandler", "ConstructorHandler",
   "ContinueStmtHandler", "ConversionFunctionHandler", "CstyleCastExprHandler",
   "CxxAccessSpecDeclHandler", "CxxBaseSpecifierHandler",
   "CxxBoolLiteralExprHandler", "CxxCatchStmtHandler",
   "CxxConstCastExprHandler", "CxxDeleteExprHandler",
   "CxxDynamicCastExprHandler", "CxxForRangeStmtHandler",
   "CxxFunctionalCastExprHandler", "CxxMethodHandler", "CxxNewExprHandler",
   "CxxNullPtrLiteralExprHandler", "CxxReinterpretCastExprHandler",
   "CxxStaticCastExprHandler", "CxxThisExprHandler", "CxxThrowExprHandler",
   "CxxTryStmtHandler", "CxxTypeidExprHandler", "CxxUnaryExprHandler",
   "DeclRefExprHandler", "DeclStmtHandler", "DefaultStmtHandler",
   "DestructorHandler", "DoStmtHandler", "EnumConstantDeclHandler",
   "EnumDeclHandler", "FieldDeclHandler", "FloatingLiteralHandler",
   "ForStmtHandler", "FunctionDeclHandler", "FunctionTemplateHandler",
   "GenericSelectionExprHandler", "GnuNullExprHandler", "GotoStmtHandler",
   "IbActionAttrHandler", "IbOutletAttrHandler",
   "IbOutletCollectionAttrHandler", "IfStmtHandler",
   "ImaginaryLiteralHandler", "InclusionDirectiveHandler",
   "IndirectGotoStmtHandler", "InitListExprHandler", "IntegerLiteralHandler",
   "InvalidCodeHandler", "InvalidFileHandler", "LabelRefHandler",
   "LabelStmtHandler", "LinkageSpecHandler", "MacroDefinitionHandler",
   "MacroInstantiationHandler", "MemberRefHandler", "MemberRefExprHandler",
   "NamespaceHandler", "NamespaceAliasHandler", "NamespaceRefHandler",
   "NotImplementedHandler", "NoDeclFoundHandler", "NullStmtHandler",
   "ObjcAtCatchStmtHandler", "ObjcAtFinallyStmtHandler",
   "ObjcAtSynchronizedStmtHandler", "ObjcAtThrowStmtHandler",
   "ObjcAtTryStmtHandler", "ObjcAutoreleasePoolStmtHandler",
   "ObjcBridgeCastExprHandler", "ObjcCategoryDeclHandler",
   "ObjcCategoryImplDeclHandler", "ObjcClassMethodDeclHandler",
   "ObjcClassRefHandler", "ObjcDynamicDeclHandler", "ObjcEncodeExprHandler",
   "ObjcForCollectionStmtHandler", "ObjcImplementationDeclHandler",
   "ObjcInstanceMethodDeclHandler", "ObjcInterfaceDeclHandler",
   "ObjcIvarDeclHandler", "ObjcMessageExprHandler", "ObjcPropertyDeclHandler",
   "ObjcProtocolDeclHandler", "ObjcProtocolExprHandler",
   "ObjcProtocolRefHandler", "ObjcSelectorExprHandler",
   "ObjcStringLiteralHandler", "ObjcSuperClassRefHandler",
   "ObjcSynthesizeDeclHandler", "OverloadedDeclRefHandler",
   "PackExpansionExprHandler", "ParenExprHandler", "ParmDeclHandler",
   "PreprocessingDirectiveHandler", "ReturnStmtHandler",
   "SehExceptStmtHandler", "SehFinallyStmtHandler", "SehTryStmtHandler",
   "SizeOfPackExprHandler", "StringLiteralHandler", "StructDeclHandler",
   "SwitchStmtHandler", "StmtexprHandler", "TemplateNonTypeParameterHandler",
   "TemplateRefHandler", "TemplateTemplateParameterHandler",
   "TemplateTypeParameterHandler", "TranslationUnitHandler",
   "TypedefDeclHandler", "TypeAliasDeclHandler", "TypeRefHandler",
   "UnaryOperatorHandler", "UnexposedAttrHandler", "UnexposedDeclHandler",
   "UnexposedExprHandler", "UnexposedStmtHandler", "UnionDeclHandler",
   "UsingDeclarationHandler", "UsingDirectiveHandler", "VarDeclHandler",
   "WhileStmtHandler"]

/-- The behaviour a handler class contributes beyond the base class: which
`checkIndentation` body it has and which `shouldIncreaseIndent` override.
`noop` covers the many classes whose `checkIndentation` is `pass` and which
keep the default `shouldIncreaseIndent` returning `False`. -/
inductive HandlerBehavior where
  | noop
  | classStructCurly
  | namespaceCurly
  | enumDecl
  | switchStmt
  | typedefDecl
  | abstractCheck
  | rootArity
deriving DecidableEq

/-- The behaviour of each defined handler class: `ClassDecl`,
`ClassTemplate`, `ClassTemplatePartialSpecialization` and `StructDecl` (a
subclass of `ClassDeclHandler`) check the class/struct brace style and gate
child indent on `indent_inside_class_struct_body`; `Namespace` checks the
namespace brace style and gates on
`indent_declarations_within_namespace_definition`; `EnumDecl` only overrides
`shouldIncreaseIndent`; `SwitchStmt` reads the non-existent configuration
attribute `indent_within_switch_body`; `TypedefDecl` checks its first
token's column; the abstract base classes keep the `checkIndentation` that
raises; `RootHandler` has a one-argument constructor, so the four-argument
construction in `getHandler` raises a `TypeError`. -/
def behaviorOfClass (c : String) : HandlerBehavior :=
  if c = "ClassDeclHandler" ∨ c = "ClassTemplateHandler" ∨
     c = "ClassTemplatePartialSpecializationHandler" ∨
     c = "StructDeclHandler" then HandlerBehavior.classStructCurly
  else if c = "NamespaceHandler" then HandlerBehavior.namespaceCurly
  else if c = "EnumDeclHandler" then HandlerBehavior.enumDecl
  else if c = "SwitchStmtHandler" then HandlerBehavior.switchStmt
  else if c = "TypedefDeclHandler" then HandlerBehavior.typedefDecl
  else if c = "IndentSyntaxNodeHandler" ∨ c = "CurlyBraceBlockHandler" then
    HandlerBehavior.abstractCheck
  else if c = "RootHandler" then HandlerBehavior.rootArity
  else HandlerBehavior.noop

/-- The dispatch of `getHandler`: compute the class name from the node kind
and resolve it with `eval`; an unresolvable name raises `NameError`. -/
def getHandlerBehavior (kind_name : String) : Except String HandlerBehavior :=
  let class_name := handlerClassName kind_name
  if class_name ∈ definedHandlerClasses then Except.ok (behaviorOfClass class_name)
  else Except.error ("NameError: name " ++ class_name ++ " is not defined")

mutual

/-- A syntax tree node as supplied by the external parser, carrying the
token window the external tokenizer yields for its extent. -/
inductive Node where
  | mk (kind : String) (extent : SourceExtent) (tokens : List Token)
       (children : NodeList)

/-- A list of sibling nodes in source order (a separate inductive so that
the traversal recursion is structural). -/
inductive NodeList where
  | nil
  | cons (n : Node) (rest : NodeList)

end

def Node.kind : Node → String
  | Node.mk k _ _ _ => k

def Node.extent : Node → SourceExtent
  | Node.mk _ e _ _ => e

def Node.tokens : Node → List Token
  | Node.mk _ _ ts _ => ts

def Node.children : Node → NodeList
  | Node.mk _ _ _ cs => cs

/-- `shouldIncreaseIndent` of each handler class (default `False`;
`SwitchStmtHandler` reads `self.config.indent_within_switch_body`, an
attribute `IndentationConfig.__init__` never sets, so it raises
`AttributeError`). -/
def shouldIncreaseIndent (b : HandlerBehavior) (config : IndentationConfig) :
    Except String Bool :=
  match b with
  | HandlerBehavior.classStructCurly =>
      Except.ok config.indent_inside_class_struct_body
  | HandlerBehavior.enumDecl => Except.ok config.indent_inside_class_struct_body
  | HandlerBehavior.namespaceCurly =>
      Except.ok config.indent_declarations_within_namespace_definition
  | HandlerBehavior.switchStmt =>
      Except.error "AttributeError: indent_within_switch_body"
  | _ => Except.ok false

/-- `suggestedChildLevel`: derive from the handler's own level with offset
`indentation_size` when `shouldIncreaseIndent()` holds, else with
offset 0. -/
def suggestedChildLevel (b : HandlerBehavior) (config : IndentationConfig)
    (level : IndentLevel) : Except String IndentLevel := do
  let inc ← shouldIncreaseIndent b config
  if inc then pure (IndentLevel.ofBaseOffset level config.indentation_size)
  else pure (IndentLevel.ofBaseOffset level 0)

/-- Handler construction in `getHandler`: `klass(indentation_check,
kind_name, node, parent)`.  For `RootHandler` the four-argument call raises
`TypeError`; otherwise `__init__` sets `self.level =
parent.suggestedChildLevel(self)`. -/
def constructHandler (b parentBehavior : HandlerBehavior)
    (config : IndentationConfig) (parentLevel : IndentLevel) :
    Except String IndentLevel :=
  match b with
  | HandlerBehavior.rootArity => Except.error "TypeError"
  | _ => suggestedChildLevel parentBehavior config parentLevel

/-- `checkIndentation()` of each handler class applied to its node.
`TypedefDeclHandler` logs `indent.statement` / "Invalid indentation level."
when its own level does not accept the node's expanded start column; the
brace-block classes run `checkCurlyBraces` with their configured style; the
abstract base bodies raise; everything else is `pass`. -/
def runCheckIndentation (b : HandlerBehavior) (config : IndentationConfig)
    (lines : List String) (level : IndentLevel) (n : Node) :
    Except String (List RuleViolation) :=
  match b with
  | HandlerBehavior.classStructCurly =>
      checkCurlyBraces config lines level n.tokens
        config.brace_positions_class_struct_declaration
  | HandlerBehavior.namespaceCurly =>
      checkCurlyBraces config lines level n.tokens
        config.brace_positions_namespace_declaration
  | HandlerBehavior.typedefDecl =>
      if level.accept (expandedTabsColumnNo lines config.tab_size
          n.extent.start : ℤ)
      then Except.ok []
      else Except.ok [⟨"indent.statement", n.extent.start.file,
        n.extent.start.line, n.extent.start.column,
        "Invalid indentation level."⟩]
  | HandlerBehavior.abstractCheck => Except.error "Abstract method!"
  | _ => Except.ok []

mutual

/-- One `enterNode` event and the depth-first visit below it: resolve the
handler via the dispatcher (fatal `NameError` if the class name is
undefined), construct the handler (computing its level from the parent's
`suggestedChildLevel`), run `checkIndentation()` immediately, then visit the
children; the handler is popped on exit.  Violations are accumulated in
discovery order. -/
def enterAndVisit (config : IndentationConfig) (lines : List String)
    (parentBehavior : HandlerBehavior) (parentLevel : IndentLevel) :
    Node → Except String (List RuleViolation)
  | Node.mk kind extent tokens children => do
      let b ← getHandlerBehavior kind
      let level ← constructHandler b parentBehavior config parentLevel
      let vs ← runCheckIndentation b config lines level
        (Node.mk kind extent tokens children)
      let rest ← visitChildren config lines b level children
      pure (vs ++ rest)

/-- Modelled from the spec: the depth-first enter/exit event driver (the
`TreeCheck` walker of `checks.py`, which is not part of this module) visits
sibling nodes in source order, pre-order, each node exactly once, and a
raised exception aborts the session; each `enterNode` event is handled by
`enterAndVisit` above.  Violations accumulate in discovery order. -/
def visitChildren (config : IndentationConfig) (lines : List String)
    (parentBehavior : HandlerBehavior) (parentLevel : IndentLevel) :
    NodeList → Except String (List RuleViolation)
  | NodeList.nil => Except.ok []
  | NodeList.cons n rest => do
      let v1 ← enterAndVisit config lines parentBehavior parentLevel n
      let v2 ← visitChildren config lines parentBehavior parentLevel rest
      pure (v1 ++ v2)

end

/-- One full traversal session of `IndentationCheck`: `beginTree` pushes the
root handler, whose level is `IndentLevel(indent=0)`, whose
`checkIndentation` does nothing and whose `shouldIncreaseIndent` is the
default `False` (here `HandlerBehavior.noop`); the externally driven
enter/exit walk (the `TreeCheck` driver lives outside this module) then
visits the top-level nodes depth first, and `endTree` pops the root. -/
def runIndentationCheck (config : IndentationConfig) (lines : List String)
    (roots : NodeList) : Except String (List RuleViolation) :=
  visitChildren config lines HandlerBehavior.noop (IndentLevel.ofIndent 0) roots

/-- C7: for a node whose kind has no registered handler (the computed class
name is not defined in the module), entering the node yields the fatal
`NameError` from `eval`: no handler is constructed, no violations are
recorded for the node, and the traversal of the sibling list containing it
aborts with that same error instead of continuing. -/
theorem dispatch_error_aborts (config : IndentationConfig) (lines : List String)
    (pb : HandlerBehavior) (level : IndentLevel) (n : Node) (rest : NodeList)
    (h : handlerClassName n.kind ∉ definedHandlerClasses) :
    enterAndVisit config lines pb level n =
      Except.error ("NameError: name " ++ handlerClassName n.kind ++
        " is not defined") ∧
    visitChildren config lines pb level (NodeList.cons n rest) =
      Except.error ("NameError: name " ++ handlerClassName n.kind ++
        " is not defined") := by
  cases n with
  | mk kind extent tokens children =>
    simp only [Node.kind] at h ⊢
    have hb : getHandlerBehavior kind =
        Except.error ("NameError: name " ++ handlerClassName kind ++
          " is not defined") := by
      simp [getHandlerBehavior, h]
    have h1 : enterAndVisit config lines pb level
        (Node.mk kind extent tokens children) =
        Except.error ("NameError: name " ++ handlerClassName kind ++
          " is not defined") := by
      rw [enterAndVisit, hb]
      rfl
    refine ⟨h1, ?_⟩
    rw [visitChildren, h1]
    rfl

def c7Node : Node :=
  Node.mk "CXX_FINAL_ATTR" ⟨⟨"t.cpp", 1, 1⟩, ⟨"t.cpp", 1, 2⟩⟩ [] NodeList.nil

/-- Witness for C7: the clang cursor kind `CXX_FINAL_ATTR` maps to the class
name `CxxFinalAttrHandler`, which `linty/indent.py` does not define, so
entering such a node aborts the traversal with a `NameError` (also when a
sibling follows). -/
theorem dispatch_error_aborts_witness :
    enterAndVisit defaultIndentationConfig [] HandlerBehavior.noop
      (IndentLevel.ofIndent 0) c7Node =
      Except.error ("NameError: name " ++ handlerClassName c7Node.kind ++
        " is not defined") ∧
    visitChildren defaultIndentationConfig [] HandlerBehavior.noop
      (IndentLevel.ofIndent 0) (NodeList.cons c7Node
        (NodeList.cons c7Node NodeList.nil)) =
      Except.error ("NameError: name " ++ handlerClassName c7Node.kind ++
        " is not defined") :=
  dispatch_error_aborts defaultIndentationConfig [] HandlerBehavior.noop
    (IndentLevel.ofIndent 0) c7Node (NodeList.cons c7Node NodeList.nil)
    (by decide)

def c3Lines : List String :=
  ["class C \x7b", "     typedef int T;", "\x7d;"]

def c3MemberTokens : List Token :=
  [mkToken TokenKind.KEYWORD "typedef" 2 6 2 13,
   mkToken TokenKind.KEYWORD "int" 2 14 2 17,
   mkToken TokenKind.IDENTIFIER "T" 2 18 2 19,
   mkToken TokenKind.PUNCTUATION ";" 2 19 2 20]

def c3ClassTokens : List Token :=
  [mkToken TokenKind.KEYWORD "class" 1 1 1 6,
   mkToken TokenKind.IDENTIFIER "C" 1 7 1 8,
   mkToken TokenKind.PUNCTUATION "\x7b" 1 9 1 10] ++ c3MemberTokens ++
  [mkToken TokenKind.PUNCTUATION "\x7d" 3 1 3 2]

/-- The member of the C3 scenario: a single-token-checked member declaration
(`TYPEDEF_DECL`, the node kind whose handler performs the direct first-token
column check) misaligned by one space: it starts at column 6 (effective
column 5) where the accepted level is `{4}`. -/
def c3Member : Node :=
  Node.mk "TYPEDEF_DECL" ⟨⟨"t.cpp", 2, 6⟩, ⟨"t.cpp", 2, 20⟩⟩ c3MemberTokens
    NodeList.nil

/-- The class declaration of the C3 scenario: braces conforming to
`same-line` (owner `C` and the left brace on line 1, the right brace on
column 1 like the first token). -/
def c3Class : Node :=
  Node.mk "CLASS_DECL" ⟨⟨"t.cpp", 1, 1⟩, ⟨"t.cpp", 3, 2⟩⟩ c3ClassTokens
    (NodeList.cons c3Member NodeList.nil)

def c3Violation : RuleViolation :=
  ⟨"indent.statement", "t.cpp", 2, 6, "Invalid indentation level."⟩

/-- C3: one full traversal of the two-node tree (class declaration with one
misaligned single-token member declaration, `indentation_size=4`,
`indent_inside_class_struct_body=True`, brace style `same-line`) produces
exactly one violation, "Invalid indentation level." for the member at line
2 column 6, and zero `indent.brace` violations. -/
theorem endToEnd_class_member :
    runIndentationCheck defaultIndentationConfig c3Lines
      (NodeList.cons c3Class NodeList.nil) = Except.ok [c3Violation] ∧
    c3Violation.text = "Invalid indentation level." ∧
    [c3Violation].countP (fun v => v.rule_type == "indent.brace") = 0 := by
  refine ⟨by decide, rfl, by decide⟩

/-- C1: the claim states that `lengthExpandedTabs` advances a tab to the next
multiple of `tab_width` strictly greater than the current column, and that
with tab width 4 the character at index 2 of `"\t\tx"` resolves to effective
column 8.  The source instead executes `l += (l / tab_width + 1) * tab_width`
(`+=` where tab-stop semantics require `=`), so on `"\t\tx"` at index 2 it
returns 12 where the specified tab-stop semantics
(`lengthExpandedTabsSpec`) returns 8; on a single leading tab (`"\tx"`,
index 1) the two coincide at 4 because the column is still 0 when the tab is
processed. -/
theorem lengthExpandedTabs_tab_bug :
    lengthExpandedTabs "\t\tx".data 2 4 = 12 ∧
    lengthExpandedTabsSpec "\t\tx".data 2 4 = 8 ∧
    lengthExpandedTabs "\tx".data 1 4 = 4 ∧
    lengthExpandedTabsSpec "\tx".data 1 4 = 4 ∧
    lengthExpandedTabs "\tx".data 0 4 = 0 := by
  decide

/-- C4: for every indent level `P`, offset `k` and column `c`, the level
derived as `IndentLevel(base=P, offset=k)` accepts `c` exactly when `P`
accepts `c - k`, and its member set has the same cardinality as that of
`P`. -/
theorem ofBaseOffset_accept_and_card (P : IndentLevel) (k c : ℤ) :
    ((IndentLevel.ofBaseOffset P k).accept c = P.accept (c - k)) ∧
    (IndentLevel.ofBaseOffset P k).levels.card = P.levels.card := by
  constructor
  · have h : (c ∈ (IndentLevel.ofBaseOffset P k).levels) ↔ (c - k ∈ P.levels) := by
      simp only [IndentLevel.ofBaseOffset, Finset.mem_image]
      constructor
      · rintro ⟨a, ha, rfl⟩
        simpa using ha
      · intro h
        exact ⟨c - k, h, by ring⟩
    simp [IndentLevel.accept, h]
  · exact Finset.card_image_of_injective _ (add_left_injective k)

/-- C8: every indent level reachable through the public operations
(singleton construction, offset derivation, widening) has a non-empty set of
accepted columns. -/
theorem reachableLevel_nonempty {L : IndentLevel} (h : ReachableLevel L) :
    L.levels.Nonempty := by
  induction h with
  | singleton c =>
      exact ⟨c, by simp [IndentLevel.ofIndent]⟩
  | derive offset _ ih =>
      obtain ⟨x, hx⟩ := ih
      refine ⟨x + offset, ?_⟩
      simp only [IndentLevel.ofBaseOffset, Finset.mem_image]
      exact ⟨x, hx, rfl⟩
  | addInt i _ ih =>
      exact ⟨i, by simp [IndentLevel.addAcceptedIndent]⟩
  | addLevel _ _ ih1 ih2 =>
      obtain ⟨x, hx⟩ := ih1
      refine ⟨x, ?_⟩
      simp only [IndentLevel.addAcceptedIndent, Finset.mem_union]
      exact Or.inl hx

/-- Witness for C8: the singleton level at column 0 is reachable and its
member set is non-empty. -/
theorem reachableLevel_nonempty_witness :
    ReachableLevel (IndentLevel.ofIndent 0) ∧
    (IndentLevel.ofIndent 0).levels.Nonempty :=
  ⟨ReachableLevel.singleton 0,
   reachableLevel_nonempty (ReachableLevel.singleton 0)⟩

/-- C10: widening is a monotone union: after `L.addAcceptedIndent v`, a
column `c` is accepted exactly when it was accepted before or `c` equals the
added integer (respectively, is a member of the added level).  In particular
no previously accepted column ever becomes unaccepted, and the operation
reads but never modifies its argument (it is a pure function of `v` here, as
the Python method only iterates over `level.levels`). -/
theorem addAcceptedIndent_accept_iff (L : IndentLevel) (v : ℤ ⊕ IndentLevel)
    (c : ℤ) :
    (L.addAcceptedIndent v).accept c = true ↔
      (L.accept c = true ∨
        match v with
        | Sum.inl i => c = i
        | Sum.inr M => M.accept c = true) := by
  cases v with
  | inl i =>
      simp only [IndentLevel.addAcceptedIndent, IndentLevel.accept,
        decide_eq_true_eq, Finset.mem_insert]
      tauto
  | inr M =>
      simp only [IndentLevel.addAcceptedIndent, IndentLevel.accept,
        decide_eq_true_eq, Finset.mem_union]

end Linty
